import Mathlib

/-!
Verification development for the session-orchestration core of the
smart-poster repository (src/utils.py, src/post_manager.py,
src/account_manager.py, src/database.py, src/ConfigManager.py).

Each Python function relevant to the checked claims is shallowly embedded
as an executable Lean definition; effects (randomness, the HTTP layer, the
browser, the SQLite store) are made explicit as parameters or as state
threaded through the definitions.  Theorems at the end of the file settle
the claims against these definitions.
-/

/-! ## Python string primitives

The source compares and searches Python `str` values.  We model a Python
string as its list of characters and mirror the three operations the
embedded code needs: substring containment (`in`), `str.lower()`, and the
lexicographic `<` used on "HH:MM" time-of-day strings. -/

/-- Helper for Python's substring test: `listPrefixOf a b` is true when
`a` is a prefix of `b`. -/
def listPrefixOf : List Char → List Char → Bool
  | [], _ => true
  | _ :: _, [] => false
  | a :: as, b :: bs => a == b && listPrefixOf as bs

/-- Python's `needle in hay` on strings: `needle` occurs contiguously in
`hay`. -/
def pyContains (hay needle : List Char) : Bool :=
  match hay with
  | [] => needle.isEmpty
  | _ :: t => listPrefixOf needle hay || pyContains t needle

/-- Python's `str.lower()`. -/
def pyLower (s : List Char) : List Char := s.map Char.toLower

/-- Python's lexicographic `<` on strings (by code point), used by
`_check_scheduled_posts` to compare "HH:MM" time strings. -/
def pyStrLt : List Char → List Char → Bool
  | [], [] => false
  | [], _ :: _ => true
  | _ :: _, [] => false
  | a :: as, b :: bs => a.toNat < b.toNat || (a == b && pyStrLt as bs)

/-! ## BanDetector — `predictive_ban_detection` (src/utils.py lines 382-408)

The Python function reads `driver.current_url`, lowercases it, checks the
configured `ban_keywords` for substring occurrence, then looks for
on-page ban/suspension markers, then issues a GET on the URL and checks
the status code against the configured `ban_status_codes`; a
`requests.RequestException` makes it return `False`.

The observable state is made explicit: the current URL, whether the
hard-coded on-page marker XPath matched any element, and the HTTP status
of the probe GET (`none` models a raised `requests.RequestException`). -/

/-- Observable browser/HTTP state consumed by `predictive_ban_detection`. -/
structure ObservableState where
  currentUrl : List Char
  banMessagePresent : Bool
  httpStatus : Option Nat
deriving Repr, DecidableEq

/-- Shallow embedding of `predictive_ban_detection` (src/utils.py 382-408).
Branch order follows the source: URL keyword check on the lowercased URL,
then the on-page marker check, then the status-code check; a failed
probe request returns `false`. -/
def predictive_ban_detection (st : ObservableState)
    (ban_keywords : List (List Char)) (ban_status_codes : List Nat) : Bool :=
  let current_url := pyLower st.currentUrl
  if ban_keywords.any (fun keyword => pyContains current_url keyword) then
    true
  else if st.banMessagePresent then
    true
  else
    match st.httpStatus with
    | none => false
    | some code => ban_status_codes.contains code

/-- The default `ban_keywords` used when the config has none
(src/utils.py line 386). -/
def defaultBanKeywords : List (List Char) :=
  ["login".toList, "checkpoint".toList, "suspended".toList,
   "disabled".toList, "banned".toList]

/-- The default `ban_status_codes` (src/utils.py line 397). -/
def defaultBanStatusCodes : List Nat := [403, 429]

/-! ## ProxyRotator — `SessionManager.rotate_proxy` (src/utils.py 218-229)

The source reads the configured proxy list; if the list is empty it
returns `None`, otherwise it returns `random.choice(proxies)`.  The
random draw is made explicit as a `randIdx` parameter: `random.choice`
returns the element at a uniformly drawn valid index, modelled as
`proxies[randIdx % len(proxies)]`.  No per-session index and no failure
counter exist anywhere in the function or in the `SessionManager`
state. -/

/-- Shallow embedding of `SessionManager.rotate_proxy` (src/utils.py
218-229): `None` on an empty list, otherwise a randomly chosen element
(the random draw is the explicit `randIdx` parameter). -/
def rotate_proxy (proxies : List String) (randIdx : Nat) : Option String :=
  if proxies.isEmpty then none
  else proxies.get? (randIdx % proxies.length)

/-! ## RetryPolicy — the retry loop of `PostManager.post_all_content`
(src/post_manager.py lines 117-135)

```
for attempt in range(max_retries):
    try:
        await self._post_content(...)
        break
    except Exception as e:
        if attempt < max_retries - 1:
            ... log warning ...
            await asyncio.sleep(delay)
        else:
            ... log error ...
            raise
```

The wrapped action is a function from the attempt number to a result;
a Python exception is an `Except.error`.  The failure classes of the
spec's taxonomy are carried in the error value so that theorems can
quantify over them — the loop itself never inspects the error. -/

/-- The spec's failure taxonomy (§7).  The embedded retry loop carries
these values opaquely. -/
inductive FailureClass where
  | transient
  | authBanned
  | malformedInput
  | resourceUnavailable
deriving Repr, DecidableEq

/-- Trace of one run of the retry loop: how many times the action was
invoked, the sleeps performed between attempts (in order), and the
final outcome (`Except.error e` models the final `raise e`). -/
structure RetryRun (E : Type) where
  attempts : Nat
  sleeps : List Nat
  result : Except E Unit
deriving Repr

/-- Worker for `retryLoop`: `remaining` is the number of loop iterations
left (`max_retries - attempt`), `i` the current attempt index. -/
def retryGo (fn : Nat → Except E Unit) (delay : Nat) :
    (i : Nat) → (remaining : Nat) → RetryRun E
  | _, 0 => ⟨0, [], Except.ok ()⟩
  | i, 1 =>
    match fn i with
    | Except.ok _ => ⟨1, [], Except.ok ()⟩
    | Except.error e => ⟨1, [], Except.error e⟩
  | i, remaining + 2 =>
    match fn i with
    | Except.ok _ => ⟨1, [], Except.ok ()⟩
    | Except.error _ =>
      let r := retryGo fn delay (i + 1) (remaining + 1)
      ⟨r.attempts + 1, delay :: r.sleeps, r.result⟩

/-- Shallow embedding of the retry loop of `post_all_content`
(src/post_manager.py 117-135).  `fn i` is the attempt-`i` invocation of
`_post_content`; the loop breaks on success, sleeps `delay` between
attempts, and re-raises the last error after `max_retries` failures. -/
def retryLoop (fn : Nat → Except E Unit) (max_retries delay : Nat) : RetryRun E :=
  retryGo fn delay 0 max_retries

/-! ## SessionHandle registry — `SessionManager.get_driver` /
`SessionManager.close_driver` (src/utils.py lines 62-108 and 121-131)

`SessionManager` keeps `self.drivers: Dict[str, webdriver.Chrome]`.
`get_driver(account_id)` returns the cached driver when one is present
and its process is still alive (`poll() is None`); otherwise it creates
a fresh driver and stores it under the key, overwriting a dead entry.
`close_driver(account_id)` quits the driver bound to the key (if any)
and removes the entry.  Both functions are synchronous Python with no
`await` inside, so under the program's asyncio concurrency each call
runs atomically; concurrency is the interleaving of whole calls.

The model gives every created driver a fresh numeric id, records which
key each driver was created for, and tracks driver liveness as a
predicate; a `crash` event models a browser process dying on its own
(the `poll()` branch).  `close_driver`'s `quit()` is modelled as ending
the driver's life; the source drops the registry entry in a `finally`
even when `quit()` raises, which this model treats as the driver being
gone either way.  The calling operation (asyncio task) that issued
each `get_driver` is recorded so that handle-holding can be observed. -/

/-- The registry state of `SessionManager`: `dict` is `self.drivers`,
`live i` whether driver `i`'s process is running, `createdKey i` the
account key driver `i` was created for. -/
structure SMState where
  nextId : Nat
  dict : String → Option Nat
  live : Nat → Bool
  createdKey : Nat → Option String

/-- Initial `SessionManager` state: empty driver registry. -/
def SMState.init : SMState :=
  ⟨0, fun _ => none, fun _ => false, fun _ => none⟩

/-- Driver creation (src/utils.py lines 97-101): a fresh driver is
instantiated and stored under the key, overwriting any previous
binding. -/
def createDriver (k : String) (s : SMState) : Nat × SMState :=
  let n := s.nextId
  (n, { nextId := n + 1,
        dict := fun k' => if k' = k then some n else s.dict k',
        live := fun i => if i = n then true else s.live i,
        createdKey := fun i => if i = n then some k else s.createdKey i })

/-- Shallow embedding of `SessionManager.get_driver` (src/utils.py
62-108): return the cached driver when present and alive, else create a
fresh one. -/
def get_driver (k : String) (s : SMState) : Nat × SMState :=
  match s.dict k with
  | some id => if s.live id then (id, s) else createDriver k s
  | none => createDriver k s

/-- Shallow embedding of `SessionManager.close_driver` (src/utils.py
121-131): quit the driver bound to the key and drop the binding; no-op
when the key is unbound. -/
def close_driver (k : String) (s : SMState) : SMState :=
  match s.dict k with
  | some id =>
    { s with dict := fun k' => if k' = k then none else s.dict k',
             live := fun i => if i = id then false else s.live i }
  | none => s

/-- Environment event: driver `id`'s browser process dies on its own
(observed by `get_driver` through `poll()`). -/
def crashDriver (id : Nat) (s : SMState) : SMState :=
  { s with live := fun i => if i = id then false else s.live i }

/-- Interleaved events on the shared `SessionManager`: `get`/`close`
performed by the asyncio task `op`, and spontaneous crashes. -/
inductive SMEvent where
  | get (op : Nat) (key : String)
  | close (op : Nat) (key : String)
  | crash (id : Nat)

/-- A run of the registry: the state plus, for each `get_driver` return,
which operation received which driver id for which key.  An operation
holds the handle it received until the handle is closed. -/
structure SMTrace where
  state : SMState
  holds : List (Nat × String × Nat)

/-- One interleaving step. -/
def stepEvent (t : SMTrace) : SMEvent → SMTrace
  | SMEvent.get op k =>
    let (id, s') := get_driver k t.state
    ⟨s', (op, k, id) :: t.holds⟩
  | SMEvent.close _ k => ⟨close_driver k t.state, t.holds⟩
  | SMEvent.crash id => ⟨crashDriver id t.state, t.holds⟩

/-- Run an event interleaving from the initial state. -/
def runEvents (evs : List SMEvent) : SMTrace :=
  evs.foldl stepEvent ⟨SMState.init, []⟩

/-- Operation `op` currently holds a live driver handle for key `k`:
some `get_driver` call by `op` for `k` returned a driver that is still
live. -/
def holdsLiveHandle (t : SMTrace) (op : Nat) (k : String) : Bool :=
  t.holds.any (fun h => h.1 == op && h.2.1 == k && t.state.live h.2.2)

/-- Registry invariant: ids at or above `nextId` are unallocated, and
every live driver is the one currently bound to its creation key. -/
def SMInv (s : SMState) : Prop :=
  (∀ i, s.nextId ≤ i → s.createdKey i = none ∧ s.live i = false) ∧
  (∀ i k, s.createdKey i = some k → s.live i = true → s.dict k = some i)

/-! ## CredentialVault — `encrypt_data` / `decrypt_data` /
`_generate_key` (src/utils.py lines 269-291)

`_generate_key` derives a 32-byte key with
`PBKDF2HMAC(SHA256, length=32, salt=config["encryption_salt"],
iterations=100000)` from the fixed passphrase `b"smart_poster_key"`
(the urlsafe-base64 wrapper that `Fernet` strips again is omitted).
`encrypt_data` calls `Fernet(key).encrypt(data)`.  Per the Fernet
specification this is `encrypt_at_time(data, current_time)` with a
fresh `os.urandom(16)` IV: the token is
`0x80 ‖ timestamp ‖ IV ‖ AES128-CBC(encKey, IV, pad(data)) ‖ HMAC`,
where the 32-byte key splits into a signing half and an encryption
half.  The per-call randomness (timestamp, IV) is made an explicit
parameter; the AES-CBC pair (with PKCS7 padding folded in), HMAC and
PBKDF2 primitives are opaque parameters, since no checked claim depends
on their internals. -/

/-- Byte string of a Python `str.encode()` (ASCII range suffices for the
fixed inputs involved). -/
def pyBytes (s : String) : List Nat := s.toList.map Char.toNat

/-- The cryptographic primitives `encrypt_data`/`decrypt_data` use,
treated as opaque functions.  `aesCbcEnc`/`aesCbcDec` include PKCS7
padding/unpadding. -/
structure CryptoPrims where
  pbkdf2Sha256 : List Nat → List Nat → Nat → Nat → List Nat
  aesCbcEnc : List Nat → List Nat → List Nat → List Nat
  aesCbcDec : List Nat → List Nat → List Nat → List Nat
  hmacSha256 : List Nat → List Nat → List Nat

/-- Shallow embedding of `_generate_key` (src/utils.py 285-291): PBKDF2
over the fixed passphrase and the configured salt, 100000 iterations,
32 bytes. -/
def _generate_key (p : CryptoPrims) (salt : String) : List Nat :=
  p.pbkdf2Sha256 (pyBytes "smart_poster_key") (pyBytes salt) 100000 32

/-- A Fernet token, with the concatenated byte fields kept separate. -/
structure FernetToken where
  version : Nat
  timestamp : Nat
  iv : List Nat
  ciphertext : List Nat
  tag : List Nat
deriving Repr, DecidableEq

/-- Fernet encryption, `Fernet.encrypt`, at an explicit time with an explicit IV (the
library draws `current_time` and `os.urandom(16)` per call).  The tag
is the HMAC of the token's other fields under the signing half of the
key. -/
def fernetEncrypt (p : CryptoPrims) (key : List Nat) (timestamp : Nat)
    (iv : List Nat) (msg : List Nat) : FernetToken :=
  let ct := p.aesCbcEnc (key.drop 16) iv msg
  { version := 128, timestamp := timestamp, iv := iv, ciphertext := ct,
    tag := p.hmacSha256 (key.take 16) (128 :: timestamp :: (iv ++ ct)) }

/-- Fernet decryption, `Fernet.decrypt`: verify the version byte and the HMAC tag, then
decrypt; `none` models the `CryptoError` raised on a malformed token. -/
def fernetDecrypt (p : CryptoPrims) (key : List Nat) (t : FernetToken) :
    Option (List Nat) :=
  if t.version == 128 &&
      t.tag == p.hmacSha256 (key.take 16) (128 :: t.timestamp :: (t.iv ++ t.ciphertext)) then
    some (p.aesCbcDec (key.drop 16) t.iv t.ciphertext)
  else
    none

/-- Shallow embedding of `encrypt_data` (src/utils.py 269-275): derive
the key, then Fernet-encrypt; `timestamp` and `iv` are the randomness
Fernet draws inside this call. -/
def encrypt_data (p : CryptoPrims) (salt : String) (timestamp : Nat)
    (iv : List Nat) (data : String) : FernetToken :=
  fernetEncrypt p (_generate_key p salt) timestamp iv (pyBytes data)

/-- Shallow embedding of `decrypt_data` (src/utils.py 277-283): derive
the key, then Fernet-decrypt. -/
def decrypt_data (p : CryptoPrims) (salt : String) (t : FernetToken) :
    Option (List Nat) :=
  fernetDecrypt p (_generate_key p salt) t

/-- A degenerate instantiation of the opaque primitives, used only to
evaluate the vault at concrete inputs; the IV-dependence of
`encrypt_data` proved below holds for every instantiation. -/
def trivialPrims : CryptoPrims where
  pbkdf2Sha256 := fun pw salt _ _ => pw ++ salt
  aesCbcEnc := fun _ _ m => m
  aesCbcDec := fun _ _ c => c
  hmacSha256 := fun _ d => d

/-! ## StateStore status constraints (src/database.py `create_tables`)

The SQLite schema enforces CHECK constraints on status columns; a write
with any other value raises an `IntegrityError`. -/

/-- The `accounts.status` CHECK constraint (src/database.py line 119):
`status IN ('Not Logged In', 'Logged In', 'Banned')`. -/
def accountStatusAllowed (s : String) : Bool :=
  s == "Not Logged In" || s == "Logged In" || s == "Banned"

/-- The `scheduled_posts.status` CHECK constraint (src/database.py line
166): `status IN ('Pending', 'Posted')`. -/
def scheduledStatusAllowed (s : String) : Bool :=
  s == "Pending" || s == "Posted"

/-- The spec's five-value account status enum (§3), written with the
store's spelling of the three values it shares with the schema. -/
def specAccountStatuses : List String :=
  ["Not Logged In", "Logged In", "Banned", "Login Failed", "Unlocked"]

/-! ## TaskQueue — `PostManager._check_scheduled_posts`
(src/post_manager.py lines 150-173)

```
while not self.stop_flag:
    try:
        now = datetime.now().strftime("%H:%M")
        scheduled_posts = self.db.get_scheduled_posts()
        for post in scheduled_posts:
            ... unpack ...
            if status != "Pending" or now < time_str:
                continue
            await self._post_content(...)
            self.db.update_scheduled_post_status(post_id, "Posted")
        await asyncio.sleep(60)
    except Exception as e:
        ... log ...
        await asyncio.sleep(60)
```

One wake-up of the loop is `pollCycle`: it walks the stored posts in
order; a post is dispatched when its status is `"Pending"` and
`now < time_str` is false (Python string comparison on "HH:MM"); the
batch call `_post_content` runs while the status is still `"Pending"`,
and only after it returns is the status set to `"Posted"`.  An exception
raised by the batch call propagates to the `except` of the `while` body,
which abandons the rest of this cycle (statuses untouched) and sleeps.
`pollCycles` chains wake-ups, each with its own batch behaviour. -/

/-- A row of `scheduled_posts` as the polling loop consumes it. -/
structure SchedPost where
  id : Nat
  fbId : String
  content : String
  time : String
  status : String
deriving Repr, DecidableEq

/-- One wake-up of `_check_scheduled_posts` (src/post_manager.py
155-168).  `runBatch p.id` models the `_post_content` call for post `p`
(`Except.error` = the call raised).  Returns the updated post list and
the ids dispatched this cycle, in dispatch order. -/
def pollCycle (now : String) (runBatch : Nat → Except String Unit) :
    List SchedPost → List SchedPost × List Nat
  | [] => ([], [])
  | p :: rest =>
    if p.status != "Pending" || pyStrLt now.toList p.time.toList then
      (p :: (pollCycle now runBatch rest).1, (pollCycle now runBatch rest).2)
    else
      match runBatch p.id with
      | Except.ok _ =>
        ({ p with status := "Posted" } :: (pollCycle now runBatch rest).1,
         p.id :: (pollCycle now runBatch rest).2)
      | Except.error _ => (p :: rest, [p.id])

/-- Successive wake-ups of the polling loop at the same wall-clock
minute; one entry of `batches` is the batch behaviour during one cycle.
Returns the final post list and all dispatched ids across cycles. -/
def pollCycles (now : String) :
    List (Nat → Except String Unit) → List SchedPost → List SchedPost × List Nat
  | [], posts => (posts, [])
  | rb :: rbs, posts =>
    ((pollCycles now rbs (pollCycle now rb posts).1).1,
     (pollCycle now rb posts).2 ++ (pollCycles now rbs (pollCycle now rb posts).1).2)

/-! ## ConcurrencyController — `AccountManager.login_all_accounts`
(src/account_manager.py lines 123-167)

The function fetches the accounts (returning `[]` if the store raises or
no account exists), spawns one login task per account, gathers the
results with `return_exceptions=True`, logs each failure, appends each
successful account to `successful_accounts`, and returns that list.
Per-account outcomes and counts are only emitted as log/status signals,
never returned. -/

/-- Result of one gathered login task: `ok`/`failed` from
`login_account`'s boolean, `exc` when the task raised. -/
inductive LoginRes where
  | ok
  | failed
  | exc (msg : String)
deriving Repr, DecidableEq

/-- The result-collection loop of `login_all_accounts` (lines 150-159):
keeps exactly the accounts whose task returned a truthy value. -/
def collectSuccessful (res : String → LoginRes) : List String → List String
  | [] => []
  | a :: rest =>
    match res a with
    | LoginRes.ok => a :: collectSuccessful res rest
    | _ => collectSuccessful res rest

/-- Shallow embedding of `login_all_accounts` (src/account_manager.py
123-167).  `dbError` models `get_accounts` raising (early `return []`);
an empty account list also returns `[]` before any task is spawned. -/
def login_all_accounts (dbError : Bool) (accounts : List String)
    (res : String → LoginRes) : List String :=
  if dbError then []
  else if accounts.isEmpty then []
  else collectSuccessful res accounts

/-! ## Status writes of `AccountManager.login_account`
(src/account_manager.py lines 169-235)

The branches of `login_account`, in source order, and the account-status
value each writes through `Database.update_account`:

* driver missing (line 174) — returns `False`, no write;
* account row missing (line 178) — no write;
* valid cookies and URL without "login" (line 188) — writes
  `"Logged In (Cookies)"`;
* checkpoint reached and CAPTCHA solving failed (line 206) — writes
  `"CAPTCHA Failed"`;
* CAPTCHA solved but 2FA page (line 210) — no write;
* `predictive_ban_detection` fired (line 215) — writes `"Banned"`;
* full success (line 222) — writes `"Logged In"`;
* any exception caught (line 227) — writes
  `"Login Failed: " ++ exception type name`.
-/

/-- The mutually exclusive terminal branches of `login_account`. -/
inductive LoginPath where
  | driverNone
  | accountMissing
  | cookieLogin
  | captchaFailed
  | twoFactorRequired
  | banDetected
  | success
  | exceptionRaised (excName : String)
deriving Repr, DecidableEq

/-- The status values `login_account` writes to the store on each branch
(src/account_manager.py lines 188, 206, 215, 222, 227). -/
def login_account_status_writes : LoginPath → List String
  | LoginPath.driverNone => []
  | LoginPath.accountMissing => []
  | LoginPath.cookieLogin => ["Logged In (Cookies)"]
  | LoginPath.captchaFailed => ["CAPTCHA Failed"]
  | LoginPath.twoFactorRequired => []
  | LoginPath.banDetected => ["Banned"]
  | LoginPath.success => ["Logged In"]
  | LoginPath.exceptionRaised excName => ["Login Failed: " ++ excName]

/-! ## ConfigManager — `validate_config` (src/ConfigManager.py 197-256)

`validate_config` walks the recognized option keys and, per key,
replaces the value by the default from `self.default_config` when it
fails that key's type/range test.  Python `bool` is a subclass of `int`,
so `isinstance(value, int)` also accepts booleans (with `True == 1`,
`False == 0` in comparisons); the model mirrors this.  The
`chrome_path`/`chromedriver_path` branch only logs a warning and never
replaces the value.  `validate_config` runs inside `load_config`,
`save_config` and `set`. -/

/-- A JSON-ish Python value as it can appear in the configuration. -/
inductive PyVal where
  | int (n : Int)
  | bool (b : Bool)
  | str (s : String)
  | list (xs : List PyVal)
  | pyNone
deriving Repr

/-- Python `isinstance(v, int)` — true for `int` and for `bool` (a
subclass of `int`). -/
def isInstInt : PyVal → Bool
  | PyVal.int _ => true
  | PyVal.bool _ => true
  | _ => false

/-- The integer a value denotes in a Python comparison (`True == 1`,
`False == 0`); other cases unreachable behind `isInstInt`. -/
def pyToInt : PyVal → Int
  | PyVal.int n => n
  | PyVal.bool b => if b then 1 else 0
  | _ => 0

/-- Python `isinstance(v, list) and all(isinstance(x, str) for x in v)`. -/
def isStrList : PyVal → Bool
  | PyVal.list xs =>
    xs.all fun x => match x with | PyVal.str _ => true | _ => false
  | _ => false

/-- Python `isinstance(v, bool)`. -/
def isInstBool : PyVal → Bool
  | PyVal.bool _ => true
  | _ => false

/-- Python `isinstance(v, str)`. -/
def isInstStr : PyVal → Bool
  | PyVal.str _ => true
  | _ => false

/-- Python `str.isdigit()` for the ASCII digits the config uses:
nonempty and all digits. -/
def pyIsDigit (s : String) : Bool :=
  !s.toList.isEmpty && s.toList.all Char.isDigit

/-- Numeric value of an all-digit string. -/
def natOfDigits (s : String) : Nat :=
  s.toList.foldl (fun acc c => 10 * acc + (c.toNat - 48)) 0

/-- The branch for `default_delay`, `post_delay`, `auto_reply_interval`,
`max_retries`, `max_sessions`, `max_group_members`, `stop_after_posts`
(src/ConfigManager.py 203-218): keep an `int` inside `[lo, hi]`, else
reset to the default. -/
def validateIntRange (lo hi : Int) (v default : PyVal) : PyVal :=
  if isInstInt v && decide (lo ≤ pyToInt v) && decide (pyToInt v ≤ hi) then v
  else default

/-- The branch for `proxies` and `custom_scripts` (lines 220-223). -/
def validateStrList (v default : PyVal) : PyVal :=
  if isStrList v then v else default

/-- The branch for the boolean flags (lines 225-229). -/
def validateBool (v default : PyVal) : PyVal :=
  if isInstBool v then v else default

/-- The branch for the plain string options (lines 231-234). -/
def validateStr (v default : PyVal) : PyVal :=
  if isInstStr v then v else default

/-- The branch for `app_id` and `chrome_version` (lines 235-238 and
251-254): a string of digits. -/
def validateDigitStr (v default : PyVal) : PyVal :=
  match v with
  | PyVal.str s => if pyIsDigit s then v else default
  | _ => default

/-- The `mobile_size` branch (lines 242-250): a `"WxH"` string with both
dimensions in `[100, 2000]`, else the default. -/
def validateMobileSize (v default : PyVal) : PyVal :=
  match v with
  | PyVal.str s =>
    match s.splitOn "x" with
    | [a, b] =>
      if pyIsDigit a && pyIsDigit b then
        if 100 ≤ natOfDigits a && natOfDigits a ≤ 2000 &&
            100 ≤ natOfDigits b && natOfDigits b ≤ 2000 then v
        else default
      else default
    | _ => default
  | _ => default

/-- The recognized configuration surface, one field per key of
`self.default_config` (src/ConfigManager.py 47-77); `captcha_api_key`
renders the source's `"2captcha_api_key"`. -/
structure PyConfig where
  captcha_api_key : PyVal
  default_delay : PyVal
  max_retries : PyVal
  proxies : PyVal
  custom_scripts : PyVal
  max_sessions : PyVal
  add_hashtags : PyVal
  add_call_to_action : PyVal
  default_language : PyVal
  max_group_members : PyVal
  use_access_token : PyVal
  app_id : PyVal
  backup_config : PyVal
  chrome_path : PyVal
  chromedriver_path : PyVal
  mobile_size : PyVal
  chrome_version : PyVal
  post_delay : PyVal
  stop_after_posts : PyVal
  predictive_ban_flag : PyVal
  proxy_rotation_enabled : PyVal
  auto_reply_enabled : PyVal
  auto_reply_interval : PyVal
  phone_number : PyVal
  last_modified : PyVal
deriving Repr

/-- The defaults dict `self.default_config` (src/ConfigManager.py 47-77). -/
def defaultConfig : PyConfig where
  captcha_api_key := PyVal.str ""
  default_delay := PyVal.int 5
  max_retries := PyVal.int 3
  proxies := PyVal.list []
  custom_scripts := PyVal.list
    [PyVal.str "Thanks for your comment! Contact us at 01225398839",
     PyVal.str "For more info, call 01225398839",
     PyVal.str "Great post! Reach out for details."]
  max_sessions := PyVal.int 5
  add_hashtags := PyVal.bool true
  add_call_to_action := PyVal.bool true
  default_language := PyVal.str "en"
  max_group_members := PyVal.int 10000
  use_access_token := PyVal.bool false
  app_id := PyVal.str "123456789012345"
  backup_config := PyVal.bool true
  chrome_path := PyVal.str "drivers/chrome.exe"
  chromedriver_path := PyVal.str "drivers/chromedriver.exe"
  mobile_size := PyVal.str "360x640"
  chrome_version := PyVal.str "133"
  post_delay := PyVal.int 10
  stop_after_posts := PyVal.int 10
  predictive_ban_flag := PyVal.bool true
  proxy_rotation_enabled := PyVal.bool true
  auto_reply_enabled := PyVal.bool true
  auto_reply_interval := PyVal.int 120
  phone_number := PyVal.str "01225398839"
  last_modified := PyVal.pyNone

/-- Shallow embedding of `validate_config` (src/ConfigManager.py
197-256): each recognized key is checked independently against its rule
and reset to its default on failure; the two browser-path options are
only warned about and `last_modified` has no rule. -/
def validate_config (c : PyConfig) : PyConfig where
  captcha_api_key := validateStr c.captcha_api_key defaultConfig.captcha_api_key
  default_delay := validateIntRange 5 300 c.default_delay defaultConfig.default_delay
  max_retries := validateIntRange 1 10 c.max_retries defaultConfig.max_retries
  proxies := validateStrList c.proxies defaultConfig.proxies
  custom_scripts := validateStrList c.custom_scripts defaultConfig.custom_scripts
  max_sessions := validateIntRange 1 10 c.max_sessions defaultConfig.max_sessions
  add_hashtags := validateBool c.add_hashtags defaultConfig.add_hashtags
  add_call_to_action := validateBool c.add_call_to_action defaultConfig.add_call_to_action
  default_language := validateStr c.default_language defaultConfig.default_language
  max_group_members :=
    validateIntRange 100 1000000 c.max_group_members defaultConfig.max_group_members
  use_access_token := validateBool c.use_access_token defaultConfig.use_access_token
  app_id := validateDigitStr c.app_id defaultConfig.app_id
  backup_config := validateBool c.backup_config defaultConfig.backup_config
  chrome_path := c.chrome_path
  chromedriver_path := c.chromedriver_path
  mobile_size := validateMobileSize c.mobile_size defaultConfig.mobile_size
  chrome_version := validateDigitStr c.chrome_version defaultConfig.chrome_version
  post_delay := validateIntRange 5 300 c.post_delay defaultConfig.post_delay
  stop_after_posts := validateIntRange 1 1000 c.stop_after_posts defaultConfig.stop_after_posts
  predictive_ban_flag := validateBool c.predictive_ban_flag defaultConfig.predictive_ban_flag
  proxy_rotation_enabled :=
    validateBool c.proxy_rotation_enabled defaultConfig.proxy_rotation_enabled
  auto_reply_enabled := validateBool c.auto_reply_enabled defaultConfig.auto_reply_enabled
  auto_reply_interval :=
    validateIntRange 5 300 c.auto_reply_interval defaultConfig.auto_reply_interval
  phone_number := validateStr c.phone_number defaultConfig.phone_number
  last_modified := c.last_modified

/-- The bounded-numeric property claimed for a validated option value:
a Python `int` whose value lies in `[lo, hi]`. -/
def intInRange (lo hi : Int) (v : PyVal) : Prop :=
  isInstInt v = true ∧ lo ≤ pyToInt v ∧ pyToInt v ≤ hi

/-! # Theorems -/

/-! ## Shared helper lemmas -/

/-- An always-failing action makes the retry loop run all `m` remaining
attempts, sleep `m - 1` times, and surface the last attempt's error. -/
theorem retryGo_const_error {E : Type} (fn : Nat → Except E Unit) (e : Nat → E)
    (hfn : ∀ i, fn i = Except.error (e i)) (d : Nat) :
    ∀ m i, 1 ≤ m →
      retryGo fn d i m = ⟨m, List.replicate (m - 1) d, Except.error (e (i + m - 1))⟩
  | 0, _, h => absurd h (by omega)
  | 1, i, _ => by simp [retryGo, hfn i]
  | m + 2, i, _ => by
    have ih := retryGo_const_error fn e hfn d (m + 1) (i + 1) (by omega)
    have harg : i + 1 + (m + 1) - 1 = i + (m + 2) - 1 := by omega
    rw [harg] at ih
    simp [retryGo, hfn i, ih, List.replicate_succ]

/-- The success-collection loop of `login_all_accounts` keeps exactly
the accounts whose result is `ok`, in order. -/
theorem collectSuccessful_eq_filter (res : String → LoginRes) :
    ∀ l : List String,
      collectSuccessful res l =
        l.filter (fun a => match res a with | LoginRes.ok => true | _ => false)
  | [] => rfl
  | a :: rest => by
    cases hres : res a <;>
      simp [collectSuccessful, hres, List.filter, collectSuccessful_eq_filter res rest]

/-! ## C3 — retry exhaustion on transient failures -/

/-- C3: for a wrapped action that fails on every attempt (each failure a
retryable `Transient`-class error, carried as `e i` on attempt `i`) and
configured `max_retries ≥ 1` attempts with fixed delay `d`, the retry
loop of `post_all_content` invokes the action exactly `max_retries`
times, performs exactly `max_retries - 1` sleeps of `d` between
consecutive attempts, and surfaces the last attempt's failure to the
caller (the final `raise` of src/post_manager.py line 135) instead of
swallowing it. -/
theorem retry_exhaustion {E : Type} (fn : Nat → Except E Unit) (e : Nat → E)
    (hfn : ∀ i, fn i = Except.error (e i)) (max_retries delay : Nat)
    (hmax : 1 ≤ max_retries) :
    (retryLoop fn max_retries delay).attempts = max_retries ∧
    (retryLoop fn max_retries delay).sleeps = List.replicate (max_retries - 1) delay ∧
    (retryLoop fn max_retries delay).result = Except.error (e (max_retries - 1)) := by
  have h := retryGo_const_error fn e hfn delay max_retries 0 hmax
  rw [retryLoop, h]
  refine ⟨rfl, rfl, ?_⟩
  have : 0 + max_retries - 1 = max_retries - 1 := by omega
  rw [this]

/-- C3 (witness): the exhaustion theorem at `max_retries = 3`,
`delay = 7`, and an action that always throws `Transient`. -/
theorem retry_exhaustion_witness :
    (retryLoop (fun _ => Except.error FailureClass.transient) 3 7).attempts = 3 ∧
    (retryLoop (fun _ => Except.error FailureClass.transient) 3 7).sleeps = [7, 7] ∧
    (retryLoop (fun _ => Except.error FailureClass.transient) 3 7).result =
      Except.error FailureClass.transient := by
  have h := retry_exhaustion (fun _ => Except.error FailureClass.transient)
    (fun _ => FailureClass.transient) (fun _ => rfl) 3 7 (by omega)
  simpa [List.replicate] using h

/-! ## C2 — no short-circuit on non-retryable failure classes -/

/-- C2 (counterexample): the claim states that an action failing with
the non-retryable `AuthBanned` class on attempt 1 is invoked exactly
once with no inter-attempt delay; the retry loop of `post_all_content`
(with `max_retries = 3`, `delay = 5`) instead invokes it three times
and sleeps twice, because the `except` clause never inspects the
failure class. -/
theorem retry_no_shortcircuit_counterexample :
    ¬ ((retryLoop (fun _ => Except.error FailureClass.authBanned) 3 5).attempts = 1 ∧
       (retryLoop (fun _ => Except.error FailureClass.authBanned) 3 5).sleeps = []) := by
  decide

/-- C2 (amended): the retry loop of `post_all_content` does not
classify failures: an action that always fails with class `e` — for
every class `e`, including the non-retryable `AuthBanned`,
`MalformedInput` and `ResourceUnavailable` — is invoked the full
`max_retries` times with `max_retries - 1` fixed delays in between,
exactly as for a `Transient` failure, and the last failure is
re-raised. -/
theorem retry_uniform_over_class (e : FailureClass) (max_retries delay : Nat)
    (hmax : 1 ≤ max_retries) :
    (retryLoop (fun _ => Except.error e) max_retries delay).attempts = max_retries ∧
    (retryLoop (fun _ => Except.error e) max_retries delay).sleeps =
      List.replicate (max_retries - 1) delay ∧
    (retryLoop (fun _ => Except.error e) max_retries delay).result = Except.error e := by
  have h := retryGo_const_error (fun _ => Except.error e) (fun _ => e)
    (fun _ => rfl) delay max_retries 0 hmax
  rw [retryLoop, h]
  exact ⟨rfl, rfl, rfl⟩

/-- C2 (witness): the amended theorem at class `AuthBanned`,
`max_retries = 3`, `delay = 5`. -/
theorem retry_uniform_over_class_witness :
    (retryLoop (fun _ => Except.error FailureClass.authBanned) 3 5).attempts = 3 ∧
    (retryLoop (fun _ => Except.error FailureClass.authBanned) 3 5).sleeps = [5, 5] ∧
    (retryLoop (fun _ => Except.error FailureClass.authBanned) 3 5).result =
      Except.error FailureClass.authBanned := by
  have h := retry_uniform_over_class FailureClass.authBanned 3 5 (by omega)
  simpa [List.replicate] using h

/-! ## C4 — proxy selection keeps no per-session index -/

/-- C4 (counterexample): the claim states that for every session key the
first selection returns the proxy at index 0 of the configured list;
`rotate_proxy` is `random.choice` over the list, and with a 4-proxy list
the draw `2` already makes the first selection return the proxy at
index 2. -/
theorem rotate_proxy_counterexample :
    rotate_proxy ["p0", "p1", "p2", "p3"] 2 ≠ some "p0" := by decide

/-- C4 (amended): proxy selection maintains no per-session-key index and
no failure count — `SessionManager` has no `recordFailure` operation and
`rotate_proxy` reads no per-key state.  Each call independently returns
`none` when the configured list is empty and otherwise a randomly drawn
element of the list (the element at the drawn index), regardless of any
failure history. -/
theorem rotate_proxy_random_choice (proxies : List String) (randIdx : Nat) :
    (proxies = [] → rotate_proxy proxies randIdx = none) ∧
    (proxies ≠ [] → ∃ p ∈ proxies, rotate_proxy proxies randIdx = some p) := by
  constructor
  · intro h
    subst h
    rfl
  · intro h
    have hlen : 0 < proxies.length := List.length_pos.mpr h
    have hidx : randIdx % proxies.length < proxies.length := Nat.mod_lt _ hlen
    refine ⟨proxies.get ⟨randIdx % proxies.length, hidx⟩, List.get_mem _ _ _, ?_⟩
    rw [rotate_proxy]
    simp [List.isEmpty_iff, h, List.get?_eq_get hidx]

/-- C4 (witness): the amended theorem with a 4-proxy list and draw 2. -/
theorem rotate_proxy_random_choice_witness :
    ∃ p ∈ ["p0", "p1", "p2", "p3"], rotate_proxy ["p0", "p1", "p2", "p3"] 2 = some p :=
  (rotate_proxy_random_choice ["p0", "p1", "p2", "p3"] 2).2 (by decide)

/-! ## C5 — ban detection and keyword case -/

/-- C5 (counterexample): the claim states that detection returns true
whenever the observed URL contains any configured keyword; with the
configured keyword `"LOGIN"` and observed URL `"https://x.com/LOGIN"`
(which contains it), no on-page marker, and a clean 200 status,
`predictive_ban_detection` returns false, because the source lowercases
the URL before the (case-sensitive) substring test. -/
theorem predictive_ban_detection_counterexample :
    pyContains "https://x.com/LOGIN".toList "LOGIN".toList = true ∧
    predictive_ban_detection ⟨"https://x.com/LOGIN".toList, false, some 200⟩
      ["LOGIN".toList] [403, 429] = false := by decide

/-- C5 (amended): ban detection returns true whenever the lowercased
observed URL contains a configured keyword (so, for the all-lowercase
default keywords, whenever the URL contains one in any letter case),
and returns false when the lowercased URL contains no configured
keyword, no on-page ban marker is present, and the last observed HTTP
status is 200 with 200 outside the configured blocking status set. -/
theorem predictive_ban_detection_spec :
    (∀ (st : ObservableState) (kws : List (List Char)) (codes : List Nat),
        (∃ k ∈ kws, pyContains (pyLower st.currentUrl) k = true) →
        predictive_ban_detection st kws codes = true) ∧
    (∀ (st : ObservableState) (kws : List (List Char)) (codes : List Nat),
        (∀ k ∈ kws, pyContains (pyLower st.currentUrl) k = false) →
        st.banMessagePresent = false →
        st.httpStatus = some 200 →
        codes.contains 200 = false →
        predictive_ban_detection st kws codes = false) := by
  constructor
  · intro st kws codes h
    obtain ⟨k, hk, hck⟩ := h
    have hany : kws.any (fun keyword => pyContains (pyLower st.currentUrl) keyword) = true :=
      List.any_eq_true.mpr ⟨k, hk, hck⟩
    simp [predictive_ban_detection, hany]
  · intro st kws codes h hmsg hstatus hcodes
    have hany : kws.any (fun keyword => pyContains (pyLower st.currentUrl) keyword) = false := by
      rw [List.any_eq_false]
      intro k hk
      simp [h k hk]
    have hnotmem : 200 ∉ codes := by simpa using hcodes
    simp [predictive_ban_detection, hany, hmsg, hstatus, hnotmem]

/-- C5 (witness): the amended theorem on the default keyword and status
lists — a checkpoint URL is flagged, a clean URL with status 200 is
not. -/
theorem predictive_ban_detection_spec_witness :
    predictive_ban_detection
      ⟨"https://m.facebook.com/checkpoint/".toList, false, some 200⟩
      defaultBanKeywords defaultBanStatusCodes = true ∧
    predictive_ban_detection
      ⟨"https://www.facebook.com/home".toList, false, some 200⟩
      defaultBanKeywords defaultBanStatusCodes = false := by
  constructor
  · exact predictive_ban_detection_spec.1
      ⟨"https://m.facebook.com/checkpoint/".toList, false, some 200⟩
      defaultBanKeywords defaultBanStatusCodes (by decide)
  · exact predictive_ban_detection_spec.2
      ⟨"https://www.facebook.com/home".toList, false, some 200⟩
      defaultBanKeywords defaultBanStatusCodes (by decide) rfl rfl (by decide)

/-! ## C6 — batch result reporting -/

/-- C6 (counterexample): the claim states that batch completion returns
a per-account outcome list with success and failure counts, letting the
caller distinguish a batch with failures from a batch that did not run.
`login_all_accounts` returns `[]` both for a batch that ran and whose
only account failed and for a batch that never ran because the store
raised — the two are indistinguishable from the returned value, and the
failed account appears nowhere in it. -/
theorem login_all_accounts_counterexample :
    login_all_accounts false ["acct1"] (fun _ => LoginRes.failed) = [] ∧
    login_all_accounts true ["acct1"] (fun _ => LoginRes.ok) = [] := by
  constructor <;> rfl

/-- C6 (amended): batch completion returns only the ordered list of
accounts whose login returned a truthy result — the input filtered by
success.  Per-account failures and aggregate counts are emitted as
log/status signals but are not part of the returned value, and a store
error yields `[]`, the same value an all-failed batch yields. -/
theorem login_all_accounts_returns_successes (dbError : Bool)
    (accounts : List String) (res : String → LoginRes) :
    login_all_accounts dbError accounts res =
      if dbError then []
      else accounts.filter (fun a => match res a with | LoginRes.ok => true | _ => false) := by
  rw [login_all_accounts]
  cases dbError
  · simp only [Bool.false_eq_true, if_false]
    by_cases h : accounts.isEmpty
    · rw [if_pos h]
      rw [List.isEmpty_iff] at h
      subst h
      rfl
    · rw [if_neg h, collectSuccessful_eq_filter]
  · rfl

/-! ## C1 — scheduled-task dispatch -/

/-- C1 (counterexample): the claim states a task is dispatched at most
once per due time, the loop first transitioning the status
Pending→Dispatched by compare-and-set before the batch runs.  The loop
performs no such transition: a task due at "00:00", polled at "00:01",
whose batch invocation raises in the first cycle, keeps status
"Pending" and is dispatched a second time by the next cycle — two
dispatches for the same due time. -/
theorem scheduler_counterexample :
    ¬ ((pollCycles "00:01"
          [fun _ => Except.error "store down", fun _ => Except.ok ()]
          [⟨1, "all", "hello", "00:00", "Pending"⟩]).2.count 1 ≤ 1) := by
  decide

/-- C1 (amended): the polling loop dispatches only tasks whose stored
status is `"Pending"` and whose due time has arrived, so a task with
terminal status is never re-dispatched; but there is no intermediate
`Dispatched` state — the store's CHECK constraint does not even admit
one — and the batch call runs while the task is still `"Pending"`: the
status becomes `"Posted"` only after a successful batch return, and if
every batch invocation of a cycle raises, the stored posts are left
unchanged, so a still-`"Pending"` due task can be dispatched again by a
later poll cycle. -/
theorem scheduler_dispatch_behaviour :
    (∀ (now : String) (rb : Nat → Except String Unit) (posts : List SchedPost)
        (id : Nat), id ∈ (pollCycle now rb posts).2 →
        ∃ p, p ∈ posts ∧ p.id = id ∧ p.status = "Pending" ∧
          pyStrLt now.toList p.time.toList = false) ∧
    (∀ (now : String) (rb : Nat → Except String Unit) (posts : List SchedPost),
        (∀ i, rb i ≠ Except.ok ()) → (pollCycle now rb posts).1 = posts) ∧
    scheduledStatusAllowed "Dispatched" = false := by
  refine ⟨?_, ?_, by decide⟩
  · intro now rb posts
    induction posts with
    | nil => intro id h; simp [pollCycle] at h
    | cons p rest ih =>
      intro id h
      by_cases hc : (p.status != "Pending" || pyStrLt now.toList p.time.toList) = true
      · rw [pollCycle, if_pos hc] at h
        obtain ⟨q, hq, hrest⟩ := ih id h
        exact ⟨q, List.mem_cons_of_mem p hq, hrest⟩
      · have hc' : p.status = "Pending" ∧ pyStrLt now.toList p.time.toList = false := by
          simpa using hc
        cases hrb : rb p.id with
        | ok u =>
          rw [pollCycle, if_neg hc, hrb] at h
          rcases List.mem_cons.mp h with heq | hmem
          · exact ⟨p, List.mem_cons_self p rest, heq.symm, hc'.1, hc'.2⟩
          · obtain ⟨q, hq, hrest⟩ := ih id hmem
            exact ⟨q, List.mem_cons_of_mem p hq, hrest⟩
        | error msg =>
          rw [pollCycle, if_neg hc, hrb] at h
          have : id = p.id := by simpa using h
          exact ⟨p, List.mem_cons_self p rest, this.symm, hc'.1, hc'.2⟩
  · intro now rb posts hrb
    induction posts with
    | nil => rfl
    | cons p rest ih =>
      by_cases hc : (p.status != "Pending" || pyStrLt now.toList p.time.toList) = true
      · rw [pollCycle, if_pos hc]
        simp [ih]
      · cases hrb' : rb p.id with
        | ok u =>
          cases u
          exact absurd hrb' (hrb p.id)
        | error msg =>
          rw [pollCycle, if_neg hc, hrb']

/-- C1 (witness): the amended theorem on a single due pending task —
a dispatched id comes from a due pending post, and a failing batch
leaves the stored posts unchanged. -/
theorem scheduler_dispatch_behaviour_witness :
    (∃ p, p ∈ [(⟨1, "all", "hello", "00:00", "Pending"⟩ : SchedPost)] ∧
        p.id = 1 ∧ p.status = "Pending" ∧
        pyStrLt "00:01".toList p.time.toList = false) ∧
    (pollCycle "00:01" (fun _ => Except.error "store down")
        [⟨1, "all", "hello", "00:00", "Pending"⟩]).1 =
      [⟨1, "all", "hello", "00:00", "Pending"⟩] := by
  constructor
  · exact scheduler_dispatch_behaviour.1 "00:01" (fun _ => Except.ok ())
      [⟨1, "all", "hello", "00:00", "Pending"⟩] 1 (by decide)
  · exact scheduler_dispatch_behaviour.2.1 "00:01" (fun _ => Except.error "store down")
      [⟨1, "all", "hello", "00:00", "Pending"⟩]
      (fun i h => Except.noConfusion h)

/-! ## C7 — session-handle registry -/

/-- The registry invariant holds initially. -/
theorem SMInv_init : SMInv SMState.init := by
  constructor
  · intro i _; exact ⟨rfl, rfl⟩
  · intro i k h; simp [SMState.init] at h

/-- Driver creation preserves the invariant provided the key is unbound
or bound to a dead driver — exactly the situations in which `get_driver`
creates. -/
theorem createDriver_inv (k : String) (s : SMState) (hs : SMInv s)
    (hpre : ∀ id, s.dict k = some id → s.live id = false) :
    SMInv (createDriver k s).2 := by
  obtain ⟨h1, h2⟩ := hs
  constructor
  · intro i hi
    have hgt : s.nextId + 1 ≤ i := by simpa [createDriver] using hi
    have hne : i ≠ s.nextId := by omega
    have hold := h1 i (by omega)
    simp [createDriver, hne, hold.1, hold.2]
  · intro i k' hck hlive
    by_cases hne : i = s.nextId
    · subst hne
      have hk : k = k' := by
        simpa [createDriver] using hck
      subst hk
      simp [createDriver]
    · have hck' : s.createdKey i = some k' := by
        simpa [createDriver, hne] using hck
      have hlive' : s.live i = true := by
        simpa [createDriver, hne] using hlive
      have hdict := h2 i k' hck' hlive'
      by_cases hkk : k' = k
      · subst hkk
        have := hpre i hdict
        rw [this] at hlive'
        exact absurd hlive' (by simp)
      · simpa [createDriver, hkk] using hdict

/-- The function `get_driver` preserves the registry invariant. -/
theorem get_driver_inv (k : String) (s : SMState) (hs : SMInv s) :
    SMInv (get_driver k s).2 := by
  rw [get_driver]
  cases hd : s.dict k with
  | none =>
    exact createDriver_inv k s hs (fun id h => by rw [hd] at h; exact Option.noConfusion h)
  | some id =>
    by_cases hl : s.live id
    · simpa [hl] using hs
    · show SMInv (if s.live id = true then (id, s) else createDriver k s).2
      rw [if_neg hl]
      refine createDriver_inv k s hs (fun id' h => ?_)
      rw [hd] at h
      cases h
      simpa using hl

/-- The function `close_driver` preserves the registry invariant. -/
theorem close_driver_inv (k : String) (s : SMState) (hs : SMInv s) :
    SMInv (close_driver k s) := by
  rw [close_driver]
  obtain ⟨h1, h2⟩ := hs
  cases hd : s.dict k with
  | none => exact ⟨h1, h2⟩
  | some id0 =>
    constructor
    · intro i hi
      have hold := h1 i (by simpa using hi)
      refine ⟨hold.1, ?_⟩
      by_cases hne : i = id0
      · simp [hne]
      · simp [hne, hold.2]
    · intro i k' hck hlive
      have hck' : s.createdKey i = some k' := hck
      have hne : i ≠ id0 := by
        intro h
        subst h
        simp at hlive
      have hlive' : s.live i = true := by simpa [hne] using hlive
      have hdict := h2 i k' hck' hlive'
      by_cases hkk : k' = k
      · subst hkk
        rw [hd] at hdict
        cases hdict
        exact absurd rfl hne
      · simpa [hkk] using hdict

/-- Spontaneous driver death preserves the registry invariant. -/
theorem crashDriver_inv (id : Nat) (s : SMState) (hs : SMInv s) :
    SMInv (crashDriver id s) := by
  obtain ⟨h1, h2⟩ := hs
  constructor
  · intro i hi
    have hold := h1 i (by simpa [crashDriver] using hi)
    refine ⟨hold.1, ?_⟩
    by_cases hne : i = id
    · simp [crashDriver, hne]
    · simp [crashDriver, hne, hold.2]
  · intro i k' hck hlive
    have hne : i ≠ id := by
      intro h
      subst h
      simp [crashDriver] at hlive
    have hlive' : s.live i = true := by simpa [crashDriver, hne] using hlive
    exact h2 i k' hck hlive'

/-- Every interleaving step preserves the registry invariant. -/
theorem stepEvent_inv (t : SMTrace) (ev : SMEvent) (h : SMInv t.state) :
    SMInv (stepEvent t ev).state := by
  cases ev with
  | get op k => exact get_driver_inv k t.state h
  | close op k => exact close_driver_inv k t.state h
  | crash id => exact crashDriver_inv id t.state h

/-- The registry invariant holds after any interleaving of
`get_driver`/`close_driver` calls and driver crashes. -/
theorem runEvents_inv (evs : List SMEvent) : SMInv (runEvents evs).state := by
  rw [runEvents]
  generalize ht : (⟨SMState.init, []⟩ : SMTrace) = t
  have h0 : SMInv t.state := by rw [← ht]; exact SMInv_init
  clear ht
  induction evs generalizing t with
  | nil => exact h0
  | cons ev evs ih => exact ih (stepEvent t ev) (stepEvent_inv t ev h0)

/-- C7 (amended): across every interleaving of `get_driver` and
`close_driver` calls by arbitrarily many concurrent operations (and
arbitrary browser-process deaths), at most one live driver exists per
account key: any two live drivers created for the same key are the same
driver.  Exclusive ownership, however, is not provided — a concurrent
operation asking for the same key is handed the same live handle, as
the C7 counterexample shows. -/
theorem session_registry_at_most_one_live (evs : List SMEvent) (k : String)
    (i j : Nat)
    (hi : (runEvents evs).state.live i = true)
    (hj : (runEvents evs).state.live j = true)
    (hik : (runEvents evs).state.createdKey i = some k)
    (hjk : (runEvents evs).state.createdKey j = some k) : i = j := by
  have hinv := runEvents_inv evs
  have hdi := hinv.2 i k hik hi
  have hdj := hinv.2 j k hjk hj
  rw [hdi] at hdj
  exact (Option.some.injEq _ _).mp hdj

/-- C7 (witness): the at-most-one-live theorem after a single
`get_driver` call. -/
theorem session_registry_at_most_one_live_witness :
    (runEvents [SMEvent.get 1 "A"]).state.live 0 = true ∧
    (runEvents [SMEvent.get 1 "A"]).state.createdKey 0 = some "A" ∧
    (0 : Nat) = 0 := by
  have hlive : (runEvents [SMEvent.get 1 "A"]).state.live 0 = true := rfl
  have hck : (runEvents [SMEvent.get 1 "A"]).state.createdKey 0 = some "A" := rfl
  exact ⟨hlive, hck,
    session_registry_at_most_one_live [SMEvent.get 1 "A"] "A" 0 0 hlive hlive hck hck⟩

/-- C7 (counterexample): the claim states no two concurrent operations
hold a live handle for the same account key simultaneously; after
operation 1 and operation 2 each call `get_driver("A")` with neither
having closed, both hold the (single, shared) live driver for key "A"
at the same instant — `get_driver` hands the cached live handle to the
second caller instead of excluding it. -/
theorem session_sharing_counterexample :
    (1 : Nat) ≠ 2 ∧
    holdsLiveHandle (runEvents [SMEvent.get 1 "A", SMEvent.get 2 "A"]) 1 "A" = true ∧
    holdsLiveHandle (runEvents [SMEvent.get 1 "A", SMEvent.get 2 "A"]) 2 "A" = true := by
  exact ⟨by omega, rfl, rfl⟩

/-! ## C8 — account status writes versus the store constraint -/

/-- C8: the orchestrator's status writes leave both the spec's
five-value enum and the store's own constraint.  On the
CAPTCHA-failure branch `login_account` writes `"CAPTCHA Failed"` and on
the cookie-login branch `"Logged In (Cookies)"`; neither is among the
spec's five statuses, and both are rejected by the `accounts.status`
CHECK constraint the same codebase creates (`status IN
('Not Logged In', 'Logged In', 'Banned')`), so the write raises an
`IntegrityError` at runtime. -/
theorem login_status_write_violates_store :
    login_account_status_writes LoginPath.captchaFailed = ["CAPTCHA Failed"] ∧
    accountStatusAllowed "CAPTCHA Failed" = false ∧
    specAccountStatuses.contains "CAPTCHA Failed" = false ∧
    login_account_status_writes LoginPath.cookieLogin = ["Logged In (Cookies)"] ∧
    accountStatusAllowed "Logged In (Cookies)" = false ∧
    specAccountStatuses.contains "Logged In (Cookies)" = false := by
  decide

/-! ## C9 — vault determinism -/

/-- C9 (counterexample): the claim states two calls of encrypt on the
same plaintext return the same ciphertext; two `encrypt_data` calls on
the plaintext `"secret"` under the default salt differ as soon as the
fresh random IV Fernet draws inside each call differs, since the token
embeds the IV. -/
theorem encrypt_nondeterminism_counterexample :
    encrypt_data trivialPrims "smart_poster_salt" 0 (List.replicate 16 0) "secret" ≠
      encrypt_data trivialPrims "smart_poster_salt" 0 (1 :: List.replicate 15 0) "secret" := by
  decide

/-- C9 (amended): decryption is a pure function of the token (hence
deterministic), and with the fixed derived key it inverts encryption
whenever the AES-CBC primitive pair round-trips; encryption, however,
is deterministic only as a function of plaintext AND the per-call
randomness — `Fernet.encrypt` draws a fresh random IV (and reads the
clock) on every call and embeds the IV in the token, so two encrypt
calls on the same plaintext with different draws always return
different ciphertexts, for every instantiation of the cryptographic
primitives. -/
theorem vault_determinism :
    (∀ (p : CryptoPrims) (salt : String) (time : Nat) (iv₁ iv₂ : List Nat)
        (data : String), iv₁ ≠ iv₂ →
        encrypt_data p salt time iv₁ data ≠ encrypt_data p salt time iv₂ data) ∧
    (∀ (p : CryptoPrims) (salt : String) (time : Nat) (iv : List Nat)
        (data : String),
        (∀ key iv' m, p.aesCbcDec key iv' (p.aesCbcEnc key iv' m) = m) →
        decrypt_data p salt (encrypt_data p salt time iv data) = some (pyBytes data)) := by
  constructor
  · intro p salt time iv₁ iv₂ data hne heq
    exact hne (congrArg FernetToken.iv heq)
  · intro p salt time iv data hinv
    simp [decrypt_data, encrypt_data, fernetDecrypt, fernetEncrypt, hinv]

/-- C9 (witness): the amended theorem at the degenerate primitives —
distinct IVs yield distinct tokens, and decryption recovers the
plaintext bytes. -/
theorem vault_determinism_witness :
    encrypt_data trivialPrims "smart_poster_salt" 5 (List.replicate 16 0) "pw" ≠
      encrypt_data trivialPrims "smart_poster_salt" 5 (List.replicate 16 1) "pw" ∧
    decrypt_data trivialPrims "smart_poster_salt"
        (encrypt_data trivialPrims "smart_poster_salt" 5 (List.replicate 16 0) "pw") =
      some (pyBytes "pw") := by
  constructor
  · exact vault_determinism.1 trivialPrims "smart_poster_salt" 5
      (List.replicate 16 0) (List.replicate 16 1) "pw" (by decide)
  · exact vault_determinism.2 trivialPrims "smart_poster_salt" 5
      (List.replicate 16 0) "pw" (fun _ _ _ => rfl)

/-! ## C10 — configuration validation bounds -/

/-- The int-range branch yields a value satisfying the range whenever
the default does. -/
theorem validateIntRange_mem (lo hi : Int) (v d : PyVal)
    (hd : intInRange lo hi d) : intInRange lo hi (validateIntRange lo hi v d) := by
  rw [validateIntRange]
  split_ifs with h
  · simp only [Bool.and_eq_true, decide_eq_true_eq] at h
    exact ⟨h.1.1, h.1.2, h.2⟩
  · exact hd

/-- The string-list branch yields a string list whenever the default is
one. -/
theorem validateStrList_mem (v d : PyVal) (hd : isStrList d = true) :
    isStrList (validateStrList v d) = true := by
  rw [validateStrList]
  split_ifs with h
  · exact h
  · exact hd

/-- The boolean branch yields a boolean whenever the default is one. -/
theorem validateBool_mem (v d : PyVal) (hd : isInstBool d = true) :
    isInstBool (validateBool v d) = true := by
  rw [validateBool]
  split_ifs with h
  · exact h
  · exact hd

/-- C10: after `validate_config` — run by `load_config`, `save_config`
and `set` — every recognized numeric option is an int in its enforced
range (`max_retries`, `max_sessions` in 1..10; `default_delay`,
`post_delay`, `auto_reply_interval` in 5..300; `stop_after_posts` in
1..1000; `max_group_members` in 100..1000000), the proxy and script
options are lists of strings, the feature flags are booleans, and a
wrongly-typed `proxies`, flag, or retry count is replaced by its
default; hence the retry-count, delay and worker-pool parameters the
orchestrator reads are always positive and bounded. -/
theorem validate_config_bounds (c : PyConfig) :
    intInRange 1 10 (validate_config c).max_retries ∧
    intInRange 1 10 (validate_config c).max_sessions ∧
    intInRange 5 300 (validate_config c).default_delay ∧
    intInRange 5 300 (validate_config c).post_delay ∧
    intInRange 5 300 (validate_config c).auto_reply_interval ∧
    intInRange 1 1000 (validate_config c).stop_after_posts ∧
    intInRange 100 1000000 (validate_config c).max_group_members ∧
    isStrList (validate_config c).proxies = true ∧
    isStrList (validate_config c).custom_scripts = true ∧
    isInstBool (validate_config c).proxy_rotation_enabled = true ∧
    isInstBool (validate_config c).auto_reply_enabled = true ∧
    isInstBool (validate_config c).predictive_ban_flag = true ∧
    isInstBool (validate_config c).add_hashtags = true ∧
    isInstBool (validate_config c).add_call_to_action = true ∧
    isInstBool (validate_config c).use_access_token = true ∧
    isInstBool (validate_config c).backup_config = true ∧
    (isStrList c.proxies = false →
      (validate_config c).proxies = defaultConfig.proxies) ∧
    (isInstBool c.auto_reply_enabled = false →
      (validate_config c).auto_reply_enabled = defaultConfig.auto_reply_enabled) ∧
    (isInstInt c.max_retries = false →
      (validate_config c).max_retries = defaultConfig.max_retries) := by
  refine ⟨validateIntRange_mem 1 10 _ _ (by exact ⟨rfl, by decide, by decide⟩),
    validateIntRange_mem 1 10 _ _ (by exact ⟨rfl, by decide, by decide⟩),
    validateIntRange_mem 5 300 _ _ (by exact ⟨rfl, by decide, by decide⟩),
    validateIntRange_mem 5 300 _ _ (by exact ⟨rfl, by decide, by decide⟩),
    validateIntRange_mem 5 300 _ _ (by exact ⟨rfl, by decide, by decide⟩),
    validateIntRange_mem 1 1000 _ _ (by exact ⟨rfl, by decide, by decide⟩),
    validateIntRange_mem 100 1000000 _ _ (by exact ⟨rfl, by decide, by decide⟩),
    validateStrList_mem _ _ (by decide),
    validateStrList_mem _ _ (by decide),
    validateBool_mem _ _ rfl,
    validateBool_mem _ _ rfl,
    validateBool_mem _ _ rfl,
    validateBool_mem _ _ rfl,
    validateBool_mem _ _ rfl,
    validateBool_mem _ _ rfl,
    validateBool_mem _ _ rfl,
    ?_, ?_, ?_⟩
  · intro h
    show validateStrList c.proxies defaultConfig.proxies = defaultConfig.proxies
    rw [validateStrList, h]
    rfl
  · intro h
    show validateBool c.auto_reply_enabled defaultConfig.auto_reply_enabled =
      defaultConfig.auto_reply_enabled
    rw [validateBool, h]
    rfl
  · intro h
    show validateIntRange 1 10 c.max_retries defaultConfig.max_retries =
      defaultConfig.max_retries
    rw [validateIntRange, h]
    rfl

/-- C10 (witness): the bounds theorem on a config with a wrongly-typed
retry count, proxy list and flag — all three come back as their
defaults, and the validated retry count is in range. -/
theorem validate_config_bounds_witness :
    intInRange 1 10
      (validate_config { defaultConfig with
        max_retries := PyVal.str "many",
        proxies := PyVal.str "p",
        auto_reply_enabled := PyVal.int 1 }).max_retries ∧
    (validate_config { defaultConfig with
        max_retries := PyVal.str "many",
        proxies := PyVal.str "p",
        auto_reply_enabled := PyVal.int 1 }).proxies = defaultConfig.proxies ∧
    (validate_config { defaultConfig with
        max_retries := PyVal.str "many",
        proxies := PyVal.str "p",
        auto_reply_enabled := PyVal.int 1 }).auto_reply_enabled =
      defaultConfig.auto_reply_enabled := by
  have h := validate_config_bounds { defaultConfig with
    max_retries := PyVal.str "many",
    proxies := PyVal.str "p",
    auto_reply_enabled := PyVal.int 1 }
  obtain ⟨h1, -, -, -, -, -, -, -, -, -, -, -, -, -, -, -, hp, ha, -⟩ := h
  exact ⟨h1, hp rfl, ha rfl⟩
